import Mathlib

/-!
Verification of the conversational RAG flow of `src/app.py` (Mahabharat GPT).

The script is a single Streamlit page.  Its per-render control flow is, in
source order:
1. page config and CSS (pure presentation, not modelled);
2. API-key check against the secrets store; on absence an error is shown and
   the script stops (lines 133-137);
3. `get_engine` (lines 141-154): returns `(None, None)` when the index
   directory is missing, otherwise a retriever configured with
   `search_kwargs={"k": 4}` and the LLM handle;
4. the sidebar (lines 159-197): each button writes a canned query string to
   `st.session_state.prompt_input`;
5. the retriever existence check (lines 209-211): error plus stop when absent;
6. bootstrap of `st.session_state.messages` with a single assistant greeting
   (lines 214-218);
7. consumption of `prompt_input` (lines 221-225): read and deleted when
   present and truthy;
8. `final_query = user_input if user_input else chat_input_val` and, when
   truthy, the query/response cycle (lines 240-270): append the user turn,
   retrieve, build a fresh system prompt, call the LLM on
   `[system] + messages`, append the assistant turn.

The external services (vector store and LLM) are modelled as functions inside
an environment record; the retriever built by `get_engine` takes the top
`search_k` passages of the environment ranking, mirroring the `k = 4`
configuration.  Streamlit session state is the `SessionState` record; one
script run is the function `render`.
-/

namespace MahabharatGPT

/-- Message role: `HumanMessage`, `AIMessage` or `SystemMessage` in app.py. -/
inductive Role where
  | user
  | assistant
  | system
deriving Repr, DecidableEq

/-- One chat message: a role together with its text content. -/
structure Msg where
  role : Role
  content : String
deriving Repr, DecidableEq

/-- The Streamlit session state used by app.py: the optional `messages`
history (absent before first bootstrap) and the optional pending
`prompt_input` shortcut query (absent unless a sidebar button queued one). -/
structure SessionState where
  messages : Option (List Msg)
  prompt_input : Option String
deriving Repr, DecidableEq

/-- External world of the script: whether the secrets store holds the API
key, whether the index directory `./mahabharat_db` exists, the external
vector-store similarity ranking (all passages, best first) and the external
generator. -/
structure Env where
  secretsHasKey : Bool
  dbPathExists : Bool
  rank : String → List String
  generate : List Msg → String

/-- The `k` of `as_retriever(search_kwargs={"k": 4})` (app.py line 147). -/
def search_k : Nat := 4

/-- The retriever/llm pair produced by `get_engine`. -/
structure Engine where
  retrieve : String → List String
  generate : List Msg → String

/-- `get_engine` (app.py lines 141-154): `None, None` when the index
directory does not exist; otherwise a retriever returning the top
`search_k` passages and the generator handle. -/
def get_engine (env : Env) : Option Engine :=
  if env.dbPathExists then
    some { retrieve := fun q => (env.rank q).take search_k,
           generate := env.generate }
  else
    none

/-- The assistant greeting appended at bootstrap (app.py lines 216-218). -/
def greetingText : String :=
  "Pranam, seeker of truth. I am the chronicler of the Great War. Ask, and I shall recite from the ancient texts."

/-- The twelve sidebar shortcut buttons (app.py lines 166-194). -/
inductive SidebarButton where
  | yudhishthira
  | bhima
  | arjuna
  | nakulaSahadeva
  | draupadi
  | duryodhana
  | karna
  | shakuni
  | dushasana
  | krishna
  | bhishma
  | drona
deriving Repr, DecidableEq

/-- The canned query string each sidebar button writes to
`st.session_state.prompt_input` (app.py lines 166-194). -/
def buttonQuery : SidebarButton → String
  | .yudhishthira => "Tell me about Yudhishthira\x27s adherence to Truth and the game of dice."
  | .bhima => "Describe Bhima\x27s immense strength and his vows."
  | .arjuna => "Describe Arjuna\x27s skills, the Gandiva bow, and his bond with Krishna."
  | .nakulaSahadeva => "What were the special skills and roles of Nakula and Sahadeva?"
  | .draupadi => "Tell me about Draupadi\x27s birth from fire and her resilience."
  | .duryodhana => "Explain Duryodhana\x27s motivations, his jealousy, and his friendship with Karna."
  | .karna => "Tell me about Karna\x27s tragic life, his charity (Daan), and his armor (Kavach)."
  | .shakuni => "What was Shakuni\x27s role in the game of dice and influencing Duryodhana?"
  | .dushasana => "What was Dushasana\x27s role in the court and his fate in the war?"
  | .krishna => "Describe the role of Krishna as the charioteer and his divinity."
  | .bhishma => "What was Bhishma\x27s vow of celibacy and his role as the commander?"
  | .drona => "Tell me about Dronacharya as the teacher of both clans and his death."

/-- The sidebar (app.py lines 159-197): at most one button registers a click
per run; a click writes its canned query to `prompt_input`. -/
def runSidebar (clicked : Option SidebarButton) (s : SessionState) : SessionState :=
  match clicked with
  | some b => { s with prompt_input := some (buttonQuery b) }
  | none => s

/-- Bootstrap (app.py lines 214-218): when `messages` is absent, initialize
it with the single assistant greeting; otherwise leave the state alone. -/
def initMessages (s : SessionState) : SessionState :=
  match s.messages with
  | none => { s with messages := some [Msg.mk Role.assistant greetingText] }
  | some _ => s

/-- Shortcut consumption (app.py lines 221-225): when `prompt_input` is
present and truthy (non-empty in Python), read it as `user_input` and delete
the key; otherwise `user_input` is `None` and the state is untouched. -/
def consumePrompt (s : SessionState) : SessionState × Option String :=
  match s.prompt_input with
  | some q =>
      if q = "" then (s, none)
      else ({ s with prompt_input := none }, some q)
  | none => (s, none)

/-- `final_query = user_input if user_input else chat_input_val`
(app.py line 238), with Python truthiness of the optional string. -/
def mkFinalQuery (user_input chat_input_val : Option String) : Option String :=
  match user_input with
  | some s => if s = "" then chat_input_val else some s
  | none => chat_input_val

/-- `context_text = "\n\n".join([d.page_content for d in docs])`
(app.py line 253). -/
def context_text (docs : List String) : String :=
  String.intercalate "\n\n" docs

/-- The system instruction built fresh per request (app.py lines 256-264):
fixed persona, context block, and the four behavioural rules, concatenated
exactly as the adjacent Python string literals are. -/
def system_prompt (ctx : String) : String :=
  "You are Sanjaya, the wise narrator of the Mahabharata. " ++
  "CONTEXT:\n" ++ ctx ++ "\n\n" ++
  "RULES:" ++
  "1. LANGUAGE: Match the user\x27s language (English, Hindi, or Hinglish)." ++
  "2. SCRIPT: If user types in Latin script (e.g. \x27Karna kaun tha\x27), use Latin script (Hinglish). Do NOT use Devanagari unless user does." ++
  "3. TONE: Respectful, epic, like a Rishi." ++
  "4. CONTENT: Answer strictly based on context."

/-- Record of one query/response cycle: the query sent to the retriever, the
passages it returned, the message list submitted to the generator, the
generator reply, and the new stored history. -/
structure QueryCycle where
  retrieverQuery : String
  docs : List String
  llmRequest : List Msg
  response : String
  newMessages : List Msg
deriving Repr, DecidableEq

/-- The query/response cycle (app.py lines 240-270): append the user turn,
retrieve passages for the query, build the system prompt over the
double-newline context block, submit `[system] + messages` to the generator,
append the reply as an assistant turn. -/
def handleQuery (eng : Engine) (msgs : List Msg) (q : String) : QueryCycle :=
  let msgs1 := msgs ++ [Msg.mk Role.user q]
  let docs := eng.retrieve q
  let ctx := context_text docs
  let sp := system_prompt ctx
  let req := Msg.mk Role.system sp :: msgs1
  let resp := eng.generate req
  { retrieverQuery := q
    docs := docs
    llmRequest := req
    response := resp
    newMessages := msgs1 ++ [Msg.mk Role.assistant resp] }

/-- Outcome of one script run: stopped at the missing-key check (before the
sidebar), stopped at the missing-index check (after the sidebar, before
bootstrap), or ran to completion.  Each constructor carries the session
state as it stands when the run ends; `completed` also records the query
sent to the retriever and the request sent to the generator, `none` when the
cycle did not run. -/
inductive RenderResult where
  | stoppedMissingKey (s : SessionState)
  | stoppedMissingDb (s : SessionState)
  | completed (s : SessionState) (retrieverQuery : Option String)
      (llmRequest : Option (List Msg))
deriving Repr, DecidableEq

/-- One full script run of app.py, in source order: key check (stop on
absence), sidebar, retriever check (stop on absence), bootstrap, shortcut
consumption, final-query selection, and — when the final query is truthy —
the query/response cycle. -/
def render (env : Env) (s0 : SessionState) (clicked : Option SidebarButton)
    (chat_input_val : Option String) : RenderResult :=
  if env.secretsHasKey then
    let s1 := runSidebar clicked s0
    match get_engine env with
    | none => RenderResult.stoppedMissingDb s1
    | some eng =>
      let s2 := initMessages s1
      let su := consumePrompt s2
      let s3 := su.1
      match mkFinalQuery su.2 chat_input_val with
      | none => RenderResult.completed s3 none none
      | some q =>
        if q = "" then RenderResult.completed s3 none none
        else
          let cyc := handleQuery eng (s3.messages.getD []) q
          RenderResult.completed { s3 with messages := some cyc.newMessages }
            (some cyc.retrieverQuery) (some cyc.llmRequest)
  else
    RenderResult.stoppedMissingKey s0

/-- The message list one cycle submits to the generator: one fresh system
instruction over the top-`search_k` context, then the stored history with
the new user turn. -/
def cycleRequest (env : Env) (ms : List Msg) (q : String) : List Msg :=
  Msg.mk Role.system (system_prompt (context_text ((env.rank q).take search_k)))
    :: (ms ++ [Msg.mk Role.user q])

/-- The stored history after one cycle: the prior turns, the new user turn,
then the assistant turn holding the generator reply. -/
def cycleStored (env : Env) (ms : List Msg) (q : String) : List Msg :=
  ms ++ [Msg.mk Role.user q,
         Msg.mk Role.assistant (env.generate (cycleRequest env ms q))]

/-- A history with no system turns (only user and assistant content). -/
def chat_only (ms : List Msg) : Prop :=
  ∀ m ∈ ms, m.role ≠ Role.system

/-! ### Concrete data for witnesses -/

/-- A concrete environment: key present, index present, five ranked
passages, a constant generator. -/
def envW : Env where
  secretsHasKey := true
  dbPathExists := true
  rank := fun _ => ["passage alpha", "passage beta", "passage gamma",
    "passage delta", "passage epsilon"]
  generate := fun _ => "a reply from the generator"

/-- A concrete environment whose index directory is missing. -/
def envNoDb : Env where
  secretsHasKey := true
  dbPathExists := false
  rank := fun _ => []
  generate := fun _ => ""

/-- A concrete environment whose secrets store lacks the API key. -/
def envNoKey : Env where
  secretsHasKey := false
  dbPathExists := true
  rank := fun _ => []
  generate := fun _ => ""

/-- A concrete bootstrapped session: just the greeting, no pending query. -/
def s0W : SessionState where
  messages := some [Msg.mk Role.assistant greetingText]
  prompt_input := none

/-- The concrete engine `get_engine` yields on `envW`. -/
def engW : Engine where
  retrieve := fun q => (envW.rank q).take search_k
  generate := envW.generate

/-! ### Helper lemmas on `render` -/

/-- Every sidebar button queues a non-empty query string. -/
theorem buttonQuery_ne_empty (b : SidebarButton) : buttonQuery b ≠ "" := by
  cases b <;> decide

/-- Key and index present, no pending shortcut, non-empty typed query: the
run completes one cycle on that query. -/
theorem render_chat_query (env : Env) (s0 : SessionState) (ms : List Msg) (q : String)
    (hkey : env.secretsHasKey = true) (hdb : env.dbPathExists = true)
    (hms : s0.messages = some ms) (hpi : s0.prompt_input = none) (hq : q ≠ "") :
    render env s0 none (some q) =
      RenderResult.completed
        { messages := some (cycleStored env ms q), prompt_input := none }
        (some q) (some (cycleRequest env ms q)) := by
  obtain ⟨oms, opi⟩ := s0
  obtain rfl : oms = some ms := hms
  obtain rfl : opi = none := hpi
  simp [render, hkey, get_engine, hdb, runSidebar, initMessages, consumePrompt,
    mkFinalQuery, hq, handleQuery, cycleStored, cycleRequest, context_text]

/-- Key and index present, a non-empty pending shortcut query: the run
completes one cycle on the pending query, whatever the chat input, and
clears the pending slot. -/
theorem render_prompt_query (env : Env) (s0 : SessionState) (ms : List Msg) (q : String)
    (ci : Option String)
    (hkey : env.secretsHasKey = true) (hdb : env.dbPathExists = true)
    (hms : s0.messages = some ms) (hpi : s0.prompt_input = some q) (hq : q ≠ "") :
    render env s0 none ci =
      RenderResult.completed
        { messages := some (cycleStored env ms q), prompt_input := none }
        (some q) (some (cycleRequest env ms q)) := by
  obtain ⟨oms, opi⟩ := s0
  obtain rfl : oms = some ms := hms
  obtain rfl : opi = some q := hpi
  simp [render, hkey, get_engine, hdb, runSidebar, initMessages, consumePrompt,
    mkFinalQuery, hq, handleQuery, cycleStored, cycleRequest, context_text]

/-- Key and index present, bootstrapped state, no effective query (pending
slot absent or empty, chat input absent or empty): the run completes with
the state unchanged and neither service invoked. -/
theorem render_idle (env : Env) (s0 : SessionState) (ms : List Msg) (ci : Option String)
    (hkey : env.secretsHasKey = true) (hdb : env.dbPathExists = true)
    (hms : s0.messages = some ms)
    (hpi : s0.prompt_input = none ∨ s0.prompt_input = some "")
    (hci : ci = none ∨ ci = some "") :
    render env s0 none ci = RenderResult.completed s0 none none := by
  obtain ⟨oms, opi⟩ := s0
  obtain rfl : oms = some ms := hms
  rcases hpi with hpi | hpi <;> obtain rfl : opi = _ := hpi <;>
    rcases hci with rfl | rfl <;>
      simp [render, hkey, get_engine, hdb, runSidebar, initMessages,
        consumePrompt, mkFinalQuery]

/-- With the key present, a run that starts with a button click is the run
on the state whose pending slot holds that button's query. -/
theorem render_clicked_eq (env : Env) (s0 : SessionState) (b : SidebarButton)
    (ci : Option String) (hkey : env.secretsHasKey = true) :
    render env s0 (some b) ci =
      render env { s0 with prompt_input := some (buttonQuery b) } none ci := by
  simp [render, hkey, runSidebar]

/-! ### Claim theorems -/

/-- C1: with key and index present, a bootstrapped state holding the N
turns `ms` and a non-empty query `q` completes one query/response cycle
whose stored history is exactly `ms` followed by the user turn holding `q`
and then the assistant turn holding the generator reply — hence exactly
`N + 2` turns, user turn before assistant turn. -/
theorem C1_cycle_appends_two_turns (env : Env) (s0 : SessionState) (ms : List Msg)
    (q : String) (hkey : env.secretsHasKey = true) (hdb : env.dbPathExists = true)
    (hms : s0.messages = some ms) (hpi : s0.prompt_input = none) (hq : q ≠ "") :
    render env s0 none (some q) =
      RenderResult.completed
        { messages := some (ms ++ [Msg.mk Role.user q,
            Msg.mk Role.assistant (env.generate (cycleRequest env ms q))]),
          prompt_input := none }
        (some q) (some (cycleRequest env ms q)) ∧
    (ms ++ [Msg.mk Role.user q,
      Msg.mk Role.assistant (env.generate (cycleRequest env ms q))]).length
      = ms.length + 2 := by
  refine ⟨?_, by simp⟩
  have h := render_chat_query env s0 ms q hkey hdb hms hpi hq
  simpa [cycleStored] using h

/-- Witness for C1: the concrete environment, the greeting-only history and
the query "Who was Karna?". -/
theorem C1_cycle_appends_two_turns_witness :
    render envW s0W none (some "Who was Karna?") =
      RenderResult.completed
        { messages := some ([Msg.mk Role.assistant greetingText] ++
            [Msg.mk Role.user "Who was Karna?",
             Msg.mk Role.assistant (envW.generate
               (cycleRequest envW [Msg.mk Role.assistant greetingText] "Who was Karna?"))]),
          prompt_input := none }
        (some "Who was Karna?")
        (some (cycleRequest envW [Msg.mk Role.assistant greetingText] "Who was Karna?")) ∧
    ([Msg.mk Role.assistant greetingText] ++
      [Msg.mk Role.user "Who was Karna?",
       Msg.mk Role.assistant (envW.generate
         (cycleRequest envW [Msg.mk Role.assistant greetingText] "Who was Karna?"))]).length
      = [Msg.mk Role.assistant greetingText].length + 2 :=
  C1_cycle_appends_two_turns envW s0W [Msg.mk Role.assistant greetingText]
    "Who was Karna?" rfl rfl rfl rfl (by decide)

/-- C2: when the index directory is absent (so the cached engine lookup
returned no retriever) every run stops at the retriever check, after the
sidebar but before bootstrap and the handler, and the stored history is
untouched: the greeting is not added and no user turn is appended. -/
theorem C2_missing_db_halts (env : Env) (s0 : SessionState)
    (clicked : Option SidebarButton) (ci : Option String)
    (hkey : env.secretsHasKey = true) (hdb : env.dbPathExists = false) :
    render env s0 clicked ci = RenderResult.stoppedMissingDb (runSidebar clicked s0) ∧
    (runSidebar clicked s0).messages = s0.messages := by
  constructor
  · simp [render, hkey, get_engine, hdb]
  · cases clicked <;> rfl

/-- Witness for C2: missing index, a fresh session, a clicked button. -/
theorem C2_missing_db_halts_witness :
    render envNoDb { messages := none, prompt_input := none }
        (some SidebarButton.arjuna) none =
      RenderResult.stoppedMissingDb
        (runSidebar (some SidebarButton.arjuna) { messages := none, prompt_input := none }) ∧
    (runSidebar (some SidebarButton.arjuna)
        { messages := none, prompt_input := none }).messages =
      ({ messages := none, prompt_input := none } : SessionState).messages :=
  C2_missing_db_halts envNoDb { messages := none, prompt_input := none }
    (some SidebarButton.arjuna) none rfl rfl

/-- C3: the request submitted to the generator is exactly one freshly built
system instruction (the persona/context/rules prompt over the retrieved
context block) followed by the full stored history including the new user
turn; the system instruction is never appended to the stored history, so a
history of only user/assistant turns stays that way after the cycle. -/
theorem C3_system_instruction_fresh (env : Env) (s0 : SessionState) (ms : List Msg)
    (q : String) (hkey : env.secretsHasKey = true) (hdb : env.dbPathExists = true)
    (hms : s0.messages = some ms) (hpi : s0.prompt_input = none) (hq : q ≠ "")
    (hco : chat_only ms) :
    render env s0 none (some q) =
      RenderResult.completed
        { messages := some (cycleStored env ms q), prompt_input := none }
        (some q)
        (some (Msg.mk Role.system
            (system_prompt (context_text ((env.rank q).take search_k)))
          :: (ms ++ [Msg.mk Role.user q]))) ∧
    chat_only (cycleStored env ms q) := by
  refine ⟨render_chat_query env s0 ms q hkey hdb hms hpi hq, ?_⟩
  intro m hm
  simp only [cycleStored, List.mem_append, List.mem_cons, List.mem_singleton,
    List.not_mem_nil, or_false] at hm
  rcases hm with hm | rfl | rfl
  · exact hco m hm
  · simp
  · simp

/-- Witness for C3: the concrete environment, the greeting-only history and
the query "Who was Karna?". -/
theorem C3_system_instruction_fresh_witness :
    render envW s0W none (some "Who was Karna?") =
      RenderResult.completed
        { messages := some (cycleStored envW [Msg.mk Role.assistant greetingText]
            "Who was Karna?"),
          prompt_input := none }
        (some "Who was Karna?")
        (some (Msg.mk Role.system
            (system_prompt (context_text ((envW.rank "Who was Karna?").take search_k)))
          :: ([Msg.mk Role.assistant greetingText] ++ [Msg.mk Role.user "Who was Karna?"]))) ∧
    chat_only (cycleStored envW [Msg.mk Role.assistant greetingText] "Who was Karna?") :=
  C3_system_instruction_fresh envW s0W [Msg.mk Role.assistant greetingText]
    "Who was Karna?" rfl rfl rfl rfl (by decide) (by unfold chat_only; decide)

/-- C4: the rerun triggered by a shortcut click consumes the queued query
exactly once — the cycle runs on the button's string and the pending slot
ends cleared — and a subsequent run with no new input neither resubmits the
query nor changes the state. -/
theorem C4_shortcut_consumed_once (env : Env) (s0 : SessionState) (ms : List Msg)
    (b : SidebarButton)
    (hkey : env.secretsHasKey = true) (hdb : env.dbPathExists = true)
    (hms : s0.messages = some ms) :
    render env s0 (some b) none =
      RenderResult.completed
        { messages := some (cycleStored env ms (buttonQuery b)), prompt_input := none }
        (some (buttonQuery b)) (some (cycleRequest env ms (buttonQuery b))) ∧
    render env
        { messages := some (cycleStored env ms (buttonQuery b)), prompt_input := none }
        none none =
      RenderResult.completed
        { messages := some (cycleStored env ms (buttonQuery b)), prompt_input := none }
        none none := by
  constructor
  · rw [render_clicked_eq env s0 b none hkey]
    exact render_prompt_query env _ ms (buttonQuery b) none hkey hdb hms rfl
      (buttonQuery_ne_empty b)
  · exact render_idle env _ (cycleStored env ms (buttonQuery b)) none hkey hdb rfl
      (Or.inl rfl) (Or.inl rfl)

/-- Witness for C4: the concrete environment, the greeting-only history and
the Arjuna button. -/
theorem C4_shortcut_consumed_once_witness :
    render envW s0W (some SidebarButton.arjuna) none =
      RenderResult.completed
        { messages := some (cycleStored envW [Msg.mk Role.assistant greetingText]
            (buttonQuery SidebarButton.arjuna)),
          prompt_input := none }
        (some (buttonQuery SidebarButton.arjuna))
        (some (cycleRequest envW [Msg.mk Role.assistant greetingText]
          (buttonQuery SidebarButton.arjuna))) ∧
    render envW
        { messages := some (cycleStored envW [Msg.mk Role.assistant greetingText]
            (buttonQuery SidebarButton.arjuna)),
          prompt_input := none }
        none none =
      RenderResult.completed
        { messages := some (cycleStored envW [Msg.mk Role.assistant greetingText]
            (buttonQuery SidebarButton.arjuna)),
          prompt_input := none }
        none none :=
  C4_shortcut_consumed_once envW s0W [Msg.mk Role.assistant greetingText]
    SidebarButton.arjuna rfl rfl rfl

/-- C5: bootstrap turns an absent history into exactly one assistant
greeting turn, and is idempotent — when a history already exists the state
is left untouched rather than reset. -/
theorem C5_bootstrap (pi : Option String) (s : SessionState) (ms : List Msg)
    (hms : s.messages = some ms) :
    initMessages { messages := none, prompt_input := pi } =
      { messages := some [Msg.mk Role.assistant greetingText], prompt_input := pi } ∧
    initMessages s = s := by
  refine ⟨rfl, ?_⟩
  obtain ⟨oms, opi⟩ := s
  obtain rfl : oms = some ms := hms
  rfl

/-- Witness for C5 at a concrete pending query and existing history. -/
theorem C5_bootstrap_witness :
    initMessages { messages := none, prompt_input := some "pending" } =
      { messages := some [Msg.mk Role.assistant greetingText],
        prompt_input := some "pending" } ∧
    initMessages { messages := some [Msg.mk Role.assistant greetingText,
        Msg.mk Role.user "hello"], prompt_input := none } =
      { messages := some [Msg.mk Role.assistant greetingText,
        Msg.mk Role.user "hello"], prompt_input := none } :=
  C5_bootstrap (some "pending")
    { messages := some [Msg.mk Role.assistant greetingText, Msg.mk Role.user "hello"],
      prompt_input := none }
    [Msg.mk Role.assistant greetingText, Msg.mk Role.user "hello"] rfl

/-- C6: the engine built by `get_engine` asks the external ranking for the
top `search_k = 4` passages; a cycle's retrieved docs are exactly that
prefix in ranking order, and the system instruction it submits embeds the
double-newline join of those passages, with no re-ranking or filtering. -/
theorem C6_top4_context (env : Env) (eng : Engine) (ms : List Msg) (q : String)
    (heng : get_engine env = some eng) :
    search_k = 4 ∧
    (handleQuery eng ms q).docs = (env.rank q).take 4 ∧
    (handleQuery eng ms q).llmRequest =
      Msg.mk Role.system
          (system_prompt (String.intercalate "\n\n" ((env.rank q).take 4)))
        :: (ms ++ [Msg.mk Role.user q]) := by
  rw [get_engine] at heng
  by_cases h : env.dbPathExists
  · rw [if_pos h] at heng
    obtain rfl : Engine.mk (fun q => (env.rank q).take search_k) env.generate = eng :=
      Option.some.inj heng
    exact ⟨rfl, rfl, rfl⟩
  · rw [if_neg h] at heng
    cases heng

/-- Witness for C6 at the concrete environment and its engine. -/
theorem C6_top4_context_witness :
    search_k = 4 ∧
    (handleQuery engW [] "dharma").docs = (envW.rank "dharma").take 4 ∧
    (handleQuery engW [] "dharma").llmRequest =
      Msg.mk Role.system
          (system_prompt (String.intercalate "\n\n" ((envW.rank "dharma").take 4)))
        :: ([] ++ [Msg.mk Role.user "dharma"]) :=
  C6_top4_context envW engW [] "dharma" rfl

/-- C7: when the API key is absent from the secrets store, every run stops
at the key check, before the sidebar, the chat surface and any query
handling — the result carries the session state untouched, whatever was
clicked or typed. -/
theorem C7_missing_key_halts (env : Env) (s0 : SessionState)
    (clicked : Option SidebarButton) (ci : Option String)
    (hkey : env.secretsHasKey = false) :
    render env s0 clicked ci = RenderResult.stoppedMissingKey s0 := by
  simp [render, hkey]

/-- Witness for C7: missing key, a fresh session, a click and typed text. -/
theorem C7_missing_key_halts_witness :
    render envNoKey { messages := none, prompt_input := none }
        (some SidebarButton.karna) (some "typed text") =
      RenderResult.stoppedMissingKey { messages := none, prompt_input := none } :=
  C7_missing_key_halts envNoKey { messages := none, prompt_input := none }
    (some SidebarButton.karna) (some "typed text") rfl

/-- C8: clicking the button labeled "Arjuna (Warrior)" queues exactly the
fixed query string about Arjuna, the Gandiva bow and Krishna as the pending
prompt input. -/
theorem C8_arjuna_button (s : SessionState) :
    runSidebar (some SidebarButton.arjuna) s =
      SessionState.mk s.messages
        (some "Describe Arjuna\x27s skills, the Gandiva bow, and his bond with Krishna.") :=
  rfl

/-- C9: with the state bootstrapped, a run whose effective query is empty or
absent — pending slot absent or empty, chat input absent or empty — leaves
the stored history (and the whole session state) unchanged and invokes
neither the retriever nor the generator. -/
theorem C9_empty_query_frame (env : Env) (s0 : SessionState) (ms : List Msg)
    (ci : Option String)
    (hkey : env.secretsHasKey = true) (hdb : env.dbPathExists = true)
    (hms : s0.messages = some ms)
    (hpi : s0.prompt_input = none ∨ s0.prompt_input = some "")
    (hci : ci = none ∨ ci = some "") :
    render env s0 none ci = RenderResult.completed s0 none none :=
  render_idle env s0 ms ci hkey hdb hms hpi hci

/-- Witness for C9: an empty pending slot and an empty chat submission. -/
theorem C9_empty_query_frame_witness :
    render envW
        (SessionState.mk (some [Msg.mk Role.assistant greetingText]) (some ""))
        none (some "") =
      RenderResult.completed
        (SessionState.mk (some [Msg.mk Role.assistant greetingText]) (some ""))
        none none :=
  C9_empty_query_frame envW
    (SessionState.mk (some [Msg.mk Role.assistant greetingText]) (some ""))
    [Msg.mk Role.assistant greetingText] (some "") rfl rfl rfl
    (Or.inr rfl) (Or.inr rfl)

/-- C10: when a non-empty pending shortcut query and a typed chat input are
both present in the same run, the cycle runs on the pending query: the
result — stored history, retriever query and generator request — does not
depend on the typed text, which is discarded and never appended. -/
theorem C10_shortcut_precedence (env : Env) (s0 : SessionState) (ms : List Msg)
    (q t : String)
    (hkey : env.secretsHasKey = true) (hdb : env.dbPathExists = true)
    (hms : s0.messages = some ms) (hpi : s0.prompt_input = some q) (hq : q ≠ "") :
    render env s0 none (some t) =
      RenderResult.completed
        { messages := some (cycleStored env ms q), prompt_input := none }
        (some q) (some (cycleRequest env ms q)) :=
  render_prompt_query env s0 ms q (some t) hkey hdb hms hpi hq

/-- Witness for C10: a pending question and a different typed text. -/
theorem C10_shortcut_precedence_witness :
    render envW
        (SessionState.mk (some [Msg.mk Role.assistant greetingText])
          (some "pending question"))
        none (some "typed text") =
      RenderResult.completed
        { messages := some (cycleStored envW [Msg.mk Role.assistant greetingText]
            "pending question"),
          prompt_input := none }
        (some "pending question")
        (some (cycleRequest envW [Msg.mk Role.assistant greetingText]
          "pending question")) :=
  C10_shortcut_precedence envW
    (SessionState.mk (some [Msg.mk Role.assistant greetingText])
      (some "pending question"))
    [Msg.mk Role.assistant greetingText] "pending question" "typed text"
    rfl rfl rfl rfl (by decide)

end MahabharatGPT
